import Mathlib

/-!
Verification development for the claudegram session/process orchestration core
(`src/sdk/client.ts` — `ClaudeClient` — and the Codex backend adapter —
`CodexClient`).  The TypeScript source is shallowly embedded: JavaScript
values flowing through the stream parser are modelled by the `Json` type,
the registry (a `Map` from chat id to session state) by an association list,
and one subprocess run by an explicit record of its observable behaviour
(stdout lines, stderr text, exit code).
-/

namespace Claudegram

/-- A JavaScript/JSON value as produced by `JSON.parse`. -/
inductive Json where
  | null
  | bool (b : Bool)
  | num (n : Int)
  | str (s : String)
  | arr (items : List Json)
  | obj (fields : List (String × Json))

/-- Property access `j[k]` on a parsed value: only objects yield fields;
`undefined` (absent property) is `none`. -/
def Json.get : Json → String → Option Json
  | .obj fields, k => fields.lookup k
  | _, _ => none

/-- JavaScript truthiness of a value. -/
def Json.truthy : Json → Bool
  | .null => false
  | .bool b => b
  | .num n => n != 0
  | .str s => s != ""
  | .arr _ => true
  | .obj _ => true

/-- Truthiness of a possibly-`undefined` value (`undefined` is falsy). -/
def jtruthy : Option Json → Bool
  | none => false
  | some j => j.truthy

/-- Optional chaining `o?.k`. -/
def jget (o : Option Json) (k : String) : Option Json :=
  o.bind (fun j => j.get k)

/-- Is the value exactly the string `t`?  (JavaScript `=== 'lit'`.) -/
def jIsStr (o : Option Json) (t : String) : Bool :=
  match o with
  | some (.str s) => s == t
  | _ => false

/-- How a value renders inside a JavaScript template literal. -/
def jsDisplay : Json → String
  | .null => "null"
  | .bool b => if b then "true" else "false"
  | .num n => toString n
  | .str s => s
  | .arr items => jsDisplayList items
  | .obj _ => "[object Object]"
where
  /-- Array rendering: elements joined by commas. -/
  jsDisplayList : List Json → String
  | [] => ""
  | [x] => jsDisplay x
  | x :: xs => jsDisplay x ++ "," ++ jsDisplayList xs

/-- JavaScript `String.prototype.trim`: strips leading and trailing
whitespace. -/
def jsTrim (s : String) : String :=
  ⟨((s.data.dropWhile Char.isWhitespace).reverse.dropWhile Char.isWhitespace).reverse⟩

/-- JavaScript `str.substring(0, n)`: the first `n` characters. -/
def jsTake (s : String) (n : Nat) : String :=
  ⟨s.data.take n⟩

/-- `v || 'dflt'`: display of `v` when truthy, else the default string. -/
def jOrElse (o : Option Json) (dflt : String) : String :=
  match o with
  | some j => if j.truthy then jsDisplay j else dflt
  | none => dflt

/-- One option offered by an `AskUserQuestion` tool call
(`{ label: opt.label || '', description: opt.description }`). -/
structure UserInputOption where
  label : String
  description : Option Json

/-- One question parsed from an `AskUserQuestion` tool call. -/
structure UserInputQuestion where
  question : String
  options : List UserInputOption

/-- Task info attached to task-management tool events. -/
structure TaskInfo where
  action : String
  subject : Option Json
  status : Option Json

/-- Result of parsing a tool use (`ToolParseResult` in the source):
a kind tag, a human readable message, and optional payloads. -/
structure ToolParseResult where
  type : String
  message : String
  questions : Option (List UserInputQuestion) := none
  taskInfo : Option TaskInfo := none

/-- Parses the option list of one question (`(q.options || []).map(...)`). -/
def parseOptions (o : Option Json) : List UserInputOption :=
  match o with
  | some (.arr opts) =>
    opts.map (fun opt =>
      { label := jOrElse (opt.get "label") "", description := opt.get "description" })
  | _ => []

/-- Parses the questions array of an `AskUserQuestion` input. -/
def parseQuestions (qs : List Json) : List UserInputQuestion :=
  qs.map (fun q =>
    { question := jOrElse (q.get "question") "Question"
      options := parseOptions (q.get "options") })

/-- `formatToolUse(toolName, input)` from `client.ts`: formats a tool use
into a human-readable message or special event via a per-tool switch. -/
def formatToolUse (toolName : String) (input : Option Json) : ToolParseResult :=
  match toolName with
  | "Bash" =>
    match jget input "command" with
    | some v =>
      if v.truthy then
        let cmd :=
          match v with
          | .str s => if s.length > 100 then jsTake s 97 ++ "..." else s
          | _ => jsDisplay v
        { type := "tool_use", message := "Running: " ++ cmd }
      else { type := "tool_use", message := "Running command..." }
    | none => { type := "tool_use", message := "Running command..." }
  | "Read" =>
    if jtruthy (jget input "file_path") then
      { type := "tool_use"
        message := "Reading: " ++ jsDisplay ((jget input "file_path").getD .null) }
    else { type := "tool_use", message := "Reading file..." }
  | "Write" =>
    if jtruthy (jget input "file_path") then
      { type := "tool_use"
        message := "Writing: " ++ jsDisplay ((jget input "file_path").getD .null) }
    else { type := "tool_use", message := "Writing file..." }
  | "Edit" =>
    if jtruthy (jget input "file_path") then
      { type := "tool_use"
        message := "Editing: " ++ jsDisplay ((jget input "file_path").getD .null) }
    else { type := "tool_use", message := "Editing file..." }
  | "Glob" =>
    if jtruthy (jget input "pattern") then
      { type := "tool_use"
        message := "Searching files: " ++ jsDisplay ((jget input "pattern").getD .null) }
    else { type := "tool_use", message := "Searching files..." }
  | "Grep" =>
    if jtruthy (jget input "pattern") then
      let path :=
        if jtruthy (jget input "path") then
          " in " ++ jsDisplay ((jget input "path").getD .null)
        else ""
      { type := "tool_use"
        message := "Searching for: \"" ++ jsDisplay ((jget input "pattern").getD .null)
          ++ "\"" ++ path }
    else { type := "tool_use", message := "Searching content..." }
  | "WebFetch" =>
    if jtruthy (jget input "url") then
      { type := "tool_use"
        message := "Fetching: " ++ jsDisplay ((jget input "url").getD .null) }
    else { type := "tool_use", message := "Fetching URL..." }
  | "WebSearch" =>
    if jtruthy (jget input "query") then
      { type := "tool_use"
        message := "Searching web: \"" ++ jsDisplay ((jget input "query").getD .null) ++ "\"" }
    else { type := "tool_use", message := "Searching web..." }
  | "Task" =>
    if jtruthy (jget input "description") then
      { type := "tool_use"
        message := "Spawning agent: " ++ jsDisplay ((jget input "description").getD .null) }
    else { type := "tool_use", message := "Spawning agent..." }
  | "EnterPlanMode" =>
    { type := "plan_start", message := "Entering plan mode..." }
  | "ExitPlanMode" =>
    { type := "plan_exit", message := "Exiting plan mode - ready to implement" }
  | "TaskCreate" =>
    { type := "task_update"
      message := "Creating task: " ++ jOrElse (jget input "subject") "New task"
      taskInfo := some { action := "create", subject := jget input "subject", status := none } }
  | "TaskUpdate" =>
    let statusMsg :=
      if jtruthy (jget input "status") then
        " → " ++ jsDisplay ((jget input "status").getD .null)
      else ""
    { type := "task_update"
      message := "Updating task" ++ statusMsg
      taskInfo := some { action := "update", subject := none, status := jget input "status" } }
  | "TaskList" =>
    { type := "task_update"
      message := "Reviewing task list..."
      taskInfo := some { action := "list", subject := none, status := none } }
  | "AskUserQuestion" =>
    let questions :=
      match jget input "questions" with
      | some (.arr qs) => parseQuestions qs
      | _ => []
    { type := "user_input_needed"
      message := "Waiting for your input..."
      questions := some questions }
  | _ => { type := "tool_use", message := "Using " ++ toolName ++ "..." }

/-- A progress event emitted during command execution (`ProgressEvent`). -/
structure ProgressEvent where
  type : String
  message : String
  questions : Option (List UserInputQuestion) := none
  taskInfo : Option TaskInfo := none

/-- One line of subprocess stdout, as observed by the stream handler:
blank after trimming, non-JSON (so `JSON.parse` throws), or parsed JSON. -/
inductive OutLine where
  | blank
  | malformed
  | json (j : Json)

/-- Scans an assistant message's content blocks for the first `tool_use`
or `thinking` block (the `for (const block of ...)` loop in
`parseStreamEvent`).  A `null` entry makes the property access throw
inside the surrounding `try`, so the whole parse yields no event. -/
def scanBlocks : List Json → Option ProgressEvent
  | [] => none
  | .null :: _ => none
  | block :: rest =>
    if jIsStr (block.get "type") "tool_use" then
      let toolName := jOrElse (block.get "name") "unknown tool"
      let result := formatToolUse toolName (block.get "input")
      some { type := result.type, message := result.message
             questions := result.questions, taskInfo := result.taskInfo }
    else if jIsStr (block.get "type") "thinking" then
      some { type := "thinking", message := "Thinking..." }
    else
      scanBlocks rest

/-- `parseStreamEvent(line)` from `client.ts`: parses a stream-json line
from the Claude CLI and extracts relevant progress info; any malformed or
unrecognized line yields no event (the `try/catch` swallows all errors). -/
def parseStreamEvent (line : OutLine) : Option ProgressEvent :=
  match line with
  | .blank => none
  | .malformed => none
  | .json event =>
    if jIsStr (event.get "type") "assistant" && jtruthy (jget (event.get "message") "content") then
      match jget (event.get "message") "content" with
      | some (.arr blocks) => scanBlocks blocks
      | _ => none
    else if jIsStr (event.get "type") "content_block_start" then
      if jIsStr (jget (event.get "content_block") "type") "tool_use" then
        some { type := "tool_use"
               message := "Starting " ++ jOrElse (jget (event.get "content_block") "name") "tool"
                 ++ "..." }
      else none
    else if jIsStr (event.get "type") "result" then
      some { type := "result", message := "Completed" }
    else none

/-- The second `try` block of the stdout handler: collects `text` blocks of
an assistant message into the accumulator (`outputText += block.text`).
A `null` block throws, which the `catch` swallows, keeping the text
appended so far. -/
def collectText : List Json → String → String
  | [], acc => acc
  | .null :: _, acc => acc
  | block :: rest, acc =>
    if jIsStr (block.get "type") "text" && jtruthy (block.get "text") then
      collectText rest (acc ++ jsDisplay ((block.get "text").getD .null))
    else
      collectText rest acc

/-- Final-result-text extraction for one parsed line (the inline
`JSON.parse` block of the stdout handler): a `result` record with a truthy
payload overwrites the accumulator; an assistant message appends its text
blocks; everything else leaves the accumulator unchanged. -/
def extractText (parsed : Json) (outputText : String) : String :=
  if jIsStr (parsed.get "type") "result" && jtruthy (parsed.get "result") then
    jsDisplay ((parsed.get "result").getD .null)
  else if jIsStr (parsed.get "type") "assistant" && jtruthy (jget (parsed.get "message") "content") then
    match jget (parsed.get "message") "content" with
    | some (.arr blocks) => collectText blocks outputText
    | _ => outputText
  else outputText

/-- Processing of one stdout line by `executeCommand`'s data handler:
blank lines are skipped; a parsed event is forwarded to the progress
callback (when one is registered) unless it is a `result` event; then the
line contributes to the final-result text accumulator. -/
def processLine (onProgress : Bool) (acc : List ProgressEvent × String) (line : OutLine) :
    List ProgressEvent × String :=
  match line with
  | .blank => acc
  | _ =>
    let events :=
      match parseStreamEvent line, onProgress with
      | some event, true =>
        if event.type == "result" then acc.1 else acc.1 ++ [event]
      | _, _ => acc.1
    let text :=
      match line with
      | .json parsed => extractText parsed acc.2
      | _ => acc.2
    (events, text)

/-- One stdout line together with the wall-clock instant at which the data
handler processed it.  The handler itself never reads this instant into
session state; it is carried so properties about activity timestamps can
be stated. -/
structure TimedLine where
  time : Nat
  line : OutLine

/-- The whole stream phase of one `executeCommand` run: fold the data
handler over the stdout lines, producing the emitted progress events (in
order) and the accumulated final-result text. -/
def streamPhase (onProgress : Bool) (lines : List TimedLine) : List ProgressEvent × String :=
  lines.foldl (fun acc tl => processLine onProgress acc tl.line) ([], "")

/-- `SessionState` from `types.ts`: state of one active session.  The
active subprocess is identified by an abstract process id. -/
structure SessionState where
  chatId : Int
  sessionId : String
  lastActivity : Nat
  conversationStarted : Bool
  activeProcess : Option Nat := none
deriving DecidableEq, Repr

/-- `AIResponse` from `types.ts`: terminal result of one send. -/
structure AIResponse where
  success : Bool
  output : String
  error : Option String := none
deriving DecidableEq, Repr

/-- Lookup in the session map (`Map.get`). -/
def lookupSession : List (Int × SessionState) → Int → Option SessionState
  | [], _ => none
  | (k, s) :: rest, chatId => if k = chatId then some s else lookupSession rest chatId

/-- Update in the session map (`Map.set`): replaces the existing entry or
appends a new one. -/
def setSession : List (Int × SessionState) → Int → SessionState → List (Int × SessionState)
  | [], chatId, s => [(chatId, s)]
  | (k, old) :: rest, chatId, s =>
    if k = chatId then (k, s) :: rest else (k, old) :: setSession rest chatId s

/-- Removal from the session map (`Map.delete`). -/
def removeSession : List (Int × SessionState) → Int → List (Int × SessionState)
  | [], _ => []
  | (k, s) :: rest, chatId =>
    if k = chatId then rest else (k, s) :: removeSession rest chatId

namespace ClaudeClient

/-- The registry-relevant state of a `ClaudeClient`: the session map plus
the configuration consulted when building an invocation. -/
structure ClientState where
  sessions : List (Int × SessionState)
  systemPromptFile : Option String := none
  onProgress : Bool := true

/-- `ClaudeClient.createSession(chatId)`: idempotent session creation.
`freshId` stands for the `randomUUID()` draw and `now` for `Date.now()`;
both are consumed only when a new session is actually created. -/
def createSession (st : ClientState) (chatId : Int) (freshId : String) (now : Nat) :
    SessionState × ClientState :=
  match lookupSession st.sessions chatId with
  | some existing => (existing, st)
  | none =>
    let session : SessionState :=
      { chatId := chatId, sessionId := freshId, lastActivity := now
        conversationStarted := false, activeProcess := none }
    (session, { st with sessions := setSession st.sessions chatId session })

/-- `ClaudeClient.hasSession(chatId)`. -/
def hasSession (st : ClientState) (chatId : Int) : Bool :=
  (lookupSession st.sessions chatId).isSome

/-- `ClaudeClient.killSession(chatId)`: removes the session; the third
component records the signal sent to the active process, if any
(`cleanupProcess` sends SIGTERM). -/
def killSession (st : ClientState) (chatId : Int) :
    Bool × ClientState × Option (Nat × String) :=
  match lookupSession st.sessions chatId with
  | none => (false, st, none)
  | some session =>
    (true, { st with sessions := removeSession st.sessions chatId },
     session.activeProcess.map (fun p => (p, "SIGTERM")))

/-- `ClaudeClient.interruptProcess(chatId)`: signals the active process
with SIGINT without touching the session map; the second component records
the signal sent. -/
def interruptProcess (st : ClientState) (chatId : Int) : Bool × Option (Nat × String) :=
  match lookupSession st.sessions chatId with
  | none => (false, none)
  | some session =>
    match session.activeProcess with
    | none => (false, none)
    | some p => (true, some (p, "SIGINT"))

/-- The fixed response returned when `sendMessage` finds no session. -/
def noSessionResponse : AIResponse :=
  { success := false, output := "", error := some "No active session. Use /start to begin." }

/-- The CLI arguments `sendMessage` assembles before the new/resume
choice. -/
def baseArgs (st : ClientState) : List String :=
  ["-p", "--dangerously-skip-permissions", "--output-format", "stream-json", "--verbose"]
  ++ (match st.systemPromptFile with
      | some f => ["--system-prompt", f]
      | none => [])

/-- Outcome of the synchronous prefix of `sendMessage`: either the
no-session early return, or the argument list handed to `executeCommand`
together with the updated client state. -/
inductive SendStart where
  | noSession (r : AIResponse)
  | proceed (args : List String) (st : ClientState)

/-- The synchronous prefix of `ClaudeClient.sendMessage` (before
`executeCommand`): fails fast when no session exists; otherwise refreshes
`lastActivity`, picks `--resume` when the conversation has started and
`--session-id` otherwise, flipping `conversationStarted` on first use. -/
def sendMessageStart (st : ClientState) (chatId : Int) (now : Nat) : SendStart :=
  match lookupSession st.sessions chatId with
  | none => .noSession noSessionResponse
  | some session =>
    let session := { session with lastActivity := now }
    if session.conversationStarted then
      .proceed (baseArgs st ++ ["--resume", session.sessionId])
        { st with sessions := setSession st.sessions chatId session }
    else
      let session := { session with conversationStarted := true }
      .proceed (baseArgs st ++ ["--session-id", session.sessionId])
        { st with sessions := setSession st.sessions chatId session }

/-- The spawn step of `executeCommand`: stores the new subprocess handle
in the session's active-process slot (overwriting any previous one). -/
def execSpawn (st : ClientState) (chatId : Int) (pid : Nat) : ClientState :=
  match lookupSession st.sessions chatId with
  | none => st
  | some session =>
    { st with sessions := setSession st.sessions chatId { session with activeProcess := some pid } }

/-- The close handler of `executeCommand`: clears the active-process slot
and resolves the response from the exit code, the accumulated text and the
captured stderr. -/
def execClose (st : ClientState) (chatId : Int) (exitCode : Int)
    (stderrText outputText : String) : AIResponse × ClientState :=
  let st' :=
    match lookupSession st.sessions chatId with
    | none => st
    | some session =>
      { st with sessions := setSession st.sessions chatId { session with activeProcess := none } }
  if exitCode = 0 then
    ({ success := true, output := jsTrim outputText }, st')
  else
    ({ success := false, output := jsTrim outputText
       error := some (if jsTrim stderrText = "" then
           "Process exited with code " ++ toString exitCode
         else jsTrim stderrText) }, st')

/-- Observable behaviour of one spawned subprocess: its handle, the stdout
lines it produces (with arrival instants), the stderr it writes, and its
exit code. -/
structure ProcRun where
  pid : Nat
  lines : List TimedLine
  stderrText : String
  exitCode : Int

/-- Everything one `sendMessage` call produces: the resolved response, the
progress events delivered to the callback (in order), the CLI invocation
used (`none` when no subprocess was spawned), and the final client
state. -/
structure RunResult where
  response : AIResponse
  events : List ProgressEvent
  invocation : Option (List String)
  state : ClientState

/-- `ClaudeClient.sendMessage(chatId, message)` composed with one full
`executeCommand` run whose subprocess behaves as `run`: the no-session
early return, or spawn, stream processing and close. -/
def sendMessage (st : ClientState) (chatId : Int) (_message : String) (now : Nat)
    (run : ProcRun) : RunResult :=
  match sendMessageStart st chatId now with
  | .noSession r => { response := r, events := [], invocation := none, state := st }
  | .proceed args st1 =>
    let st2 := execSpawn st1 chatId run.pid
    let streamed := streamPhase st.onProgress run.lines
    let closed := execClose st2 chatId run.exitCode run.stderrText streamed.2
    { response := closed.1, events := streamed.1, invocation := some args, state := closed.2 }

end ClaudeClient

namespace CodexClient

/-- The registry-relevant state of a `CodexClient` (the Codex backend
adapter holds the same session map and configuration fields). -/
structure ClientState where
  sessions : List (Int × SessionState)
  systemPromptFile : Option String := none
  onProgress : Bool := true

/-- `CodexClient.createSession(chatId)`: idempotent session creation, with
`freshId` standing for the `randomUUID()` draw and `now` for
`Date.now()`. -/
def createSession (st : ClientState) (chatId : Int) (freshId : String) (now : Nat) :
    SessionState × ClientState :=
  match lookupSession st.sessions chatId with
  | some existing => (existing, st)
  | none =>
    let session : SessionState :=
      { chatId := chatId, sessionId := freshId, lastActivity := now
        conversationStarted := false, activeProcess := none }
    (session, { st with sessions := setSession st.sessions chatId session })

/-- `CodexClient.hasSession(chatId)`. -/
def hasSession (st : ClientState) (chatId : Int) : Bool :=
  (lookupSession st.sessions chatId).isSome

/-- `CodexClient.killSession(chatId)`: removes the session; the third
component records the SIGTERM sent to the active process, if any. -/
def killSession (st : ClientState) (chatId : Int) :
    Bool × ClientState × Option (Nat × String) :=
  match lookupSession st.sessions chatId with
  | none => (false, st, none)
  | some session =>
    (true, { st with sessions := removeSession st.sessions chatId },
     session.activeProcess.map (fun p => (p, "SIGTERM")))

/-- `CodexClient.interruptProcess(chatId)`: signals the active process
with SIGINT without touching the session map. -/
def interruptProcess (st : ClientState) (chatId : Int) : Bool × Option (Nat × String) :=
  match lookupSession st.sessions chatId with
  | none => (false, none)
  | some session =>
    match session.activeProcess with
    | none => (false, none)
    | some p => (true, some (p, "SIGINT"))

end CodexClient

/-- One session-registry operation, applied identically to both backend
clients.  `create` carries the identifier draw and the clock reading so
both clients consume the same oracle values. -/
inductive RegOp where
  | create (chatId : Int) (freshId : String) (now : Nat)
  | has (chatId : Int)
  | kill (chatId : Int)
  | interrupt (chatId : Int)

/-- Observable result of one registry operation: the session returned by
`createSession`, or the boolean returned by the other operations. -/
inductive RegOut where
  | session (s : SessionState)
  | flag (b : Bool)
deriving DecidableEq, Repr

/-- Applies one registry operation to a `ClaudeClient`. -/
def ClaudeClient.regStep (st : ClaudeClient.ClientState) : RegOp → RegOut × ClaudeClient.ClientState
  | .create chatId freshId now =>
    let r := ClaudeClient.createSession st chatId freshId now
    (.session r.1, r.2)
  | .has chatId => (.flag (ClaudeClient.hasSession st chatId), st)
  | .kill chatId =>
    let r := ClaudeClient.killSession st chatId
    (.flag r.1, r.2.1)
  | .interrupt chatId => (.flag (ClaudeClient.interruptProcess st chatId).1, st)

/-- Applies one registry operation to a `CodexClient`. -/
def CodexClient.regStep (st : CodexClient.ClientState) : RegOp → RegOut × CodexClient.ClientState
  | .create chatId freshId now =>
    let r := CodexClient.createSession st chatId freshId now
    (.session r.1, r.2)
  | .has chatId => (.flag (CodexClient.hasSession st chatId), st)
  | .kill chatId =>
    let r := CodexClient.killSession st chatId
    (.flag r.1, r.2.1)
  | .interrupt chatId => (.flag (CodexClient.interruptProcess st chatId).1, st)

/-- Runs a sequence of registry operations on a `ClaudeClient`, collecting
the outputs in order. -/
def ClaudeClient.runOps (st : ClaudeClient.ClientState) :
    List RegOp → List RegOut × ClaudeClient.ClientState
  | [] => ([], st)
  | op :: ops =>
    let r := ClaudeClient.regStep st op
    let rest := ClaudeClient.runOps r.2 ops
    (r.1 :: rest.1, rest.2)

/-- Runs a sequence of registry operations on a `CodexClient`, collecting
the outputs in order. -/
def CodexClient.runOps (st : CodexClient.ClientState) :
    List RegOp → List RegOut × CodexClient.ClientState
  | [] => ([], st)
  | op :: ops =>
    let r := CodexClient.regStep st op
    let rest := CodexClient.runOps r.2 ops
    (r.1 :: rest.1, rest.2)

/-! ## Helper lemmas and concrete fixtures -/

theorem lookupSession_setSession_self (l : List (Int × SessionState)) (c : Int)
    (s : SessionState) : lookupSession (setSession l c s) c = some s := by
  induction l with
  | nil => simp [setSession, lookupSession]
  | cons hd tl ih =>
    obtain ⟨k, v⟩ := hd
    by_cases hk : k = c <;> simp [setSession, lookupSession, hk, ih]

/-- A fresh session fixture: conversation not yet started, no active
process. -/
def sessFresh : SessionState :=
  { chatId := 1, sessionId := "sid", lastActivity := 0, conversationStarted := false }

/-- A client holding exactly the fresh session for chat 1. -/
def stFresh : ClaudeClient.ClientState := { sessions := [(1, sessFresh)] }

/-- A stream line carrying an assistant `tool_use` block (a Bash call). -/
def toolLine : Json :=
  .obj [("type", .str "assistant"),
        ("message", .obj [("content", .arr [
          .obj [("type", .str "tool_use"), ("name", .str "Bash"),
                ("input", .obj [("command", .str "ls")])]])])]

/-- A stream line carrying an assistant `text` block with surrounding
whitespace. -/
def textLine : Json :=
  .obj [("type", .str "assistant"),
        ("message", .obj [("content", .arr [
          .obj [("type", .str "text"), ("text", .str " hi ")]])])]

/-- A terminal `result` record with payload `"done"`. -/
def resLine : Json :=
  .obj [("type", .str "result"), ("result", .str "done")]

/-! ## C2: send on a nonexistent session -/

/-- C2: for every chat identifier for which `createSession` was never
called (no entry in the session map), `sendMessage` returns the failed
no-session response (success `false`, empty output, the distinct
"No active session" failure detail), emits zero progress events, spawns
no invocation, and leaves the client state unchanged. -/
theorem send_without_session_fails (st : ClaudeClient.ClientState) (chatId : Int)
    (msg : String) (now : Nat) (run : ClaudeClient.ProcRun)
    (h : lookupSession st.sessions chatId = none) :
    ClaudeClient.sendMessage st chatId msg now run =
      { response := { success := false, output := ""
                      error := some "No active session. Use /start to begin." }
        events := [], invocation := none, state := st } := by
  simp [ClaudeClient.sendMessage, ClaudeClient.sendMessageStart, h,
    ClaudeClient.noSessionResponse]

/-- Witness for C2 at a concrete client (empty session map) and run. -/
theorem send_without_session_fails_witness :
    ClaudeClient.sendMessage { sessions := [] } 1 "hello" 0 ⟨7, [], "", 0⟩ =
      { response := { success := false, output := ""
                      error := some "No active session. Use /start to begin." }
        events := [], invocation := none, state := { sessions := [] } } :=
  send_without_session_fails { sessions := [] } 1 "hello" 0 ⟨7, [], "", 0⟩ rfl

/-! ## C4: createSession is idempotent -/

/-- C4: `createSession` is idempotent — a second call for the same chat
identifier returns the already-existing session object (in particular with
unchanged `sessionId` and `conversationStarted`) and leaves the client
state unchanged; and a call for a previously unknown chat identifier
creates a session with `conversationStarted = false`, no active process,
and the freshly drawn identifier. -/
theorem createSession_idempotent (st : ClaudeClient.ClientState) (chatId : Int)
    (id1 id2 : String) (now1 now2 : Nat) :
    (ClaudeClient.createSession (ClaudeClient.createSession st chatId id1 now1).2
        chatId id2 now2).1 = (ClaudeClient.createSession st chatId id1 now1).1 ∧
    (ClaudeClient.createSession (ClaudeClient.createSession st chatId id1 now1).2
        chatId id2 now2).2 = (ClaudeClient.createSession st chatId id1 now1).2 ∧
    (lookupSession st.sessions chatId = none →
      (ClaudeClient.createSession st chatId id1 now1).1.conversationStarted = false ∧
      (ClaudeClient.createSession st chatId id1 now1).1.activeProcess = none ∧
      (ClaudeClient.createSession st chatId id1 now1).1.sessionId = id1) := by
  cases h : lookupSession st.sessions chatId with
  | some existing =>
    simp [ClaudeClient.createSession, h]
  | none =>
    simp [ClaudeClient.createSession, h, lookupSession_setSession_self]

/-- Witness for C4 at a concrete empty client: the second `createSession`
returns the session made by the first, unchanged. -/
theorem createSession_idempotent_witness :
    (ClaudeClient.createSession
        (ClaudeClient.createSession { sessions := [] } 1 "uuid-a" 3).2 1 "uuid-b" 9).1
      = (ClaudeClient.createSession { sessions := [] } 1 "uuid-a" 3).1 ∧
    (ClaudeClient.createSession
        (ClaudeClient.createSession { sessions := [] } 1 "uuid-a" 3).2 1 "uuid-b" 9).2
      = (ClaudeClient.createSession { sessions := [] } 1 "uuid-a" 3).2 ∧
    (lookupSession ({ sessions := [] } : ClaudeClient.ClientState).sessions 1 = none →
      (ClaudeClient.createSession { sessions := [] } 1 "uuid-a" 3).1.conversationStarted = false ∧
      (ClaudeClient.createSession { sessions := [] } 1 "uuid-a" 3).1.activeProcess = none ∧
      (ClaudeClient.createSession { sessions := [] } 1 "uuid-a" 3).1.sessionId = "uuid-a") :=
  createSession_idempotent { sessions := [] } 1 "uuid-a" "uuid-b" 3 9

/-! ## C1: first send starts the conversation, later sends resume it -/

/-- C1: for a session whose conversation has not started, `sendMessage`
uses the new-conversation invocation (`--session-id` with the session's
conversation identifier) and afterwards the stored session has
`conversationStarted = true` with unchanged `sessionId`; for a session
whose conversation has started, it uses the resume invocation
(`--resume` with the same identifier), again leaving the flag `true` and
the identifier unchanged — so every send after the first resumes the same
conversation. -/
theorem send_invocation_new_then_resume (st : ClaudeClient.ClientState) (chatId : Int)
    (s : SessionState) (msg : String) (now : Nat) (run : ClaudeClient.ProcRun)
    (h : lookupSession st.sessions chatId = some s) :
    (s.conversationStarted = false →
      (ClaudeClient.sendMessage st chatId msg now run).invocation
        = some (ClaudeClient.baseArgs st ++ ["--session-id", s.sessionId])) ∧
    (s.conversationStarted = true →
      (ClaudeClient.sendMessage st chatId msg now run).invocation
        = some (ClaudeClient.baseArgs st ++ ["--resume", s.sessionId])) ∧
    (∃ s', lookupSession (ClaudeClient.sendMessage st chatId msg now run).state.sessions chatId
        = some s' ∧ s'.conversationStarted = true ∧ s'.sessionId = s.sessionId) := by
  refine ⟨fun hfalse => ?_, fun htrue => ?_, ?_⟩
  · simp [ClaudeClient.sendMessage, ClaudeClient.sendMessageStart, h, hfalse]
  · simp [ClaudeClient.sendMessage, ClaudeClient.sendMessageStart, h, htrue]
  · cases hstart : s.conversationStarted with
    | false =>
      refine ⟨{ s with lastActivity := now, conversationStarted := true, activeProcess := none },
        ?_, rfl, rfl⟩
      simp [ClaudeClient.sendMessage, ClaudeClient.sendMessageStart, ClaudeClient.execSpawn,
        ClaudeClient.execClose, h, hstart, lookupSession_setSession_self, apply_ite Prod.snd]
    | true =>
      refine ⟨{ s with lastActivity := now, activeProcess := none }, ?_, hstart, rfl⟩
      simp [ClaudeClient.sendMessage, ClaudeClient.sendMessageStart, ClaudeClient.execSpawn,
        ClaudeClient.execClose, h, hstart, lookupSession_setSession_self, apply_ite Prod.snd]

/-- Witness for C1: a fresh session gets the `--session-id` invocation and
ends up started with the same identifier. -/
theorem send_invocation_new_then_resume_witness :
    (sessFresh.conversationStarted = false →
      (ClaudeClient.sendMessage stFresh 1 "hello" 5 ⟨7, [], "", 0⟩).invocation
        = some (ClaudeClient.baseArgs stFresh ++ ["--session-id", sessFresh.sessionId])) ∧
    (sessFresh.conversationStarted = true →
      (ClaudeClient.sendMessage stFresh 1 "hello" 5 ⟨7, [], "", 0⟩).invocation
        = some (ClaudeClient.baseArgs stFresh ++ ["--resume", sessFresh.sessionId])) ∧
    (∃ s', lookupSession
          (ClaudeClient.sendMessage stFresh 1 "hello" 5 ⟨7, [], "", 0⟩).state.sessions 1
        = some s' ∧ s'.conversationStarted = true ∧ s'.sessionId = sessFresh.sessionId) :=
  send_invocation_new_then_resume stFresh 1 sessFresh "hello" 5 ⟨7, [], "", 0⟩ rfl

/-! ## C3: terminal result records are suppressed yet feed the text -/

theorem processLine_events_no_result (onP : Bool) (acc : List ProgressEvent × String)
    (l : OutLine) (hacc : acc.1.all (fun e => e.type != "result") = true) :
    (processLine onP acc l).1.all (fun e => e.type != "result") = true := by
  cases l with
  | blank => exact hacc
  | malformed => simpa [processLine, parseStreamEvent] using hacc
  | json j =>
    cases hp : parseStreamEvent (.json j) with
    | none => simpa [processLine, hp] using hacc
    | some event =>
      cases onP with
      | false => simpa [processLine, hp] using hacc
      | true =>
        by_cases he : (event.type == "result") = true
        · simpa [processLine, hp, he] using hacc
        · have he' : ¬ event.type = "result" := by simpa using he
          simp [processLine, hp, he', List.all_append, hacc]

theorem streamFold_no_result (onP : Bool) (lines : List TimedLine)
    (acc : List ProgressEvent × String)
    (hacc : acc.1.all (fun e => e.type != "result") = true) :
    ((lines.foldl (fun a tl => processLine onP a tl.line) acc).1.all
      (fun e => e.type != "result")) = true := by
  induction lines generalizing acc with
  | nil => exact hacc
  | cons hd tl ih => exact ih _ (processLine_events_no_result onP acc hd.line hacc)

/-- C3: a line parsed as a terminal `result` record never reaches the
progress callback — in fact no event of any send has type `result` — yet
the record leaves the event list untouched while, when its payload is
truthy, the payload overwrites the final-text accumulator. -/
theorem result_record_suppressed (st : ClaudeClient.ClientState) (chatId : Int)
    (msg : String) (now : Nat) (run : ClaudeClient.ProcRun) (onP : Bool)
    (acc : List ProgressEvent × String) (j : Json)
    (hres : j.get "type" = some (Json.str "result")) :
    ((ClaudeClient.sendMessage st chatId msg now run).events.all
        (fun e => e.type != "result")) = true ∧
    (processLine onP acc (.json j)).1 = acc.1 ∧
    (jtruthy (j.get "result") = true →
      (processLine onP acc (.json j)).2 = jsDisplay ((j.get "result").getD Json.null)) := by
  refine ⟨?_, ?_, ?_⟩
  · cases hs : ClaudeClient.sendMessageStart st chatId now with
    | noSession r => simp [ClaudeClient.sendMessage, hs]
    | proceed args st1 =>
      simp only [ClaudeClient.sendMessage, hs, streamPhase]
      exact streamFold_no_result _ _ _ (by simp)
  · cases onP <;> simp [processLine, parseStreamEvent, jIsStr, hres]
  · intro ht
    simp [processLine, extractText, jIsStr, hres, ht]

/-- Witness for C3: a send whose stream holds one `result` record with
payload `"done"` emits no `result` event, and processing that record
overwrites a previously accumulated text with `"done"`. -/
theorem result_record_suppressed_witness :
    ((ClaudeClient.sendMessage stFresh 1 "m" 5 ⟨7, [⟨1, .json resLine⟩], "", 0⟩).events.all
        (fun e => e.type != "result")) = true ∧
    (processLine true (([], "previous") : List ProgressEvent × String) (.json resLine)).1
      = (([], "previous") : List ProgressEvent × String).1 ∧
    (jtruthy (resLine.get "result") = true →
      (processLine true (([], "previous") : List ProgressEvent × String) (.json resLine)).2
        = jsDisplay ((resLine.get "result").getD Json.null)) :=
  result_record_suppressed stFresh 1 "m" 5 ⟨7, [⟨1, .json resLine⟩], "", 0⟩ true
    ([], "previous") resLine rfl

/-! ## C5: response versus exit status -/

/-- C5 counterexample: with accumulated text `" hi "` and a non-zero exit
with empty stderr, the response text is the trimmed `"hi"`, not the text
accumulated so far — the close handler trims on the failure path too,
contrary to the claim, which reserves trimming for the success path. -/
theorem close_failure_text_counterexample :
    (streamPhase true [⟨1, .json textLine⟩]).2 = " hi " ∧
    (ClaudeClient.sendMessage stFresh 1 "m" 5 ⟨7, [⟨1, .json textLine⟩], "", 1⟩).response
      = { success := false, output := "hi", error := some "Process exited with code 1" } ∧
    (ClaudeClient.sendMessage stFresh 1 "m" 5 ⟨7, [⟨1, .json textLine⟩], "", 1⟩).response.output
      ≠ " hi " := by
  refine ⟨by decide, by decide, by decide⟩

/-- C5 amended: a zero exit yields a succeeding response whose text is the
accumulated text trimmed; a non-zero exit yields a failing response whose
text is the accumulated text, likewise trimmed, and whose failure detail
is the trimmed error-stream content, falling back to the generic
"Process exited with code N" message when the error stream trims to
empty. -/
theorem close_response_exit_status (st : ClaudeClient.ClientState) (chatId : Int)
    (s : SessionState) (msg : String) (now : Nat) (run : ClaudeClient.ProcRun)
    (h : lookupSession st.sessions chatId = some s) :
    (run.exitCode = 0 →
      (ClaudeClient.sendMessage st chatId msg now run).response
        = { success := true
            output := jsTrim (streamPhase st.onProgress run.lines).2, error := none }) ∧
    (run.exitCode ≠ 0 →
      (ClaudeClient.sendMessage st chatId msg now run).response
        = { success := false
            output := jsTrim (streamPhase st.onProgress run.lines).2
            error := some (if jsTrim run.stderrText = "" then
                "Process exited with code " ++ toString run.exitCode
              else jsTrim run.stderrText) }) := by
  constructor
  · intro h0
    cases hstart : s.conversationStarted <;>
      simp [ClaudeClient.sendMessage, ClaudeClient.sendMessageStart, h, hstart,
        ClaudeClient.execClose, h0]
  · intro hn
    cases hstart : s.conversationStarted <;>
      simp [ClaudeClient.sendMessage, ClaudeClient.sendMessageStart, h, hstart,
        ClaudeClient.execClose, hn]

/-- Witness for C5 (amended) at a concrete failing run with stderr
`" boom "`. -/
theorem close_response_exit_status_witness :
    ((3 : Int) = 0 →
      (ClaudeClient.sendMessage stFresh 1 "m" 5 ⟨7, [⟨1, .json textLine⟩], " boom ", 3⟩).response
        = { success := true
            output := jsTrim (streamPhase stFresh.onProgress
              [⟨1, .json textLine⟩]).2, error := none }) ∧
    ((3 : Int) ≠ 0 →
      (ClaudeClient.sendMessage stFresh 1 "m" 5 ⟨7, [⟨1, .json textLine⟩], " boom ", 3⟩).response
        = { success := false
            output := jsTrim (streamPhase stFresh.onProgress [⟨1, .json textLine⟩]).2
            error := some (if jsTrim " boom " = "" then
                "Process exited with code " ++ toString (3 : Int)
              else jsTrim " boom ") }) :=
  close_response_exit_status stFresh 1 sessFresh "m" 5 ⟨7, [⟨1, .json textLine⟩], " boom ", 3⟩ rfl

/-! ## C7: which operations refresh the activity timestamp -/

/-- C7 counterexample: a send issued at instant 5 whose subprocess
produces one parsed tool-use event at instant 9 leaves the session's
`lastActivity` at 5 — the stream handler does not refresh the session
timestamp on parsed output events, contrary to the claim. -/
theorem lastActivity_event_counterexample :
    (ClaudeClient.sendMessage stFresh 1 "m" 5 ⟨7, [⟨9, .json toolLine⟩], "", 0⟩).events.length
      = 1 ∧
    ((⟨7, [⟨9, .json toolLine⟩], "", 0⟩ : ClaudeClient.ProcRun).lines.map TimedLine.time)
      = [9] ∧
    lookupSession
        (ClaudeClient.sendMessage stFresh 1 "m" 5 ⟨7, [⟨9, .json toolLine⟩], "", 0⟩).state.sessions
        1
      = some { chatId := 1, sessionId := "sid", lastActivity := 5
               conversationStarted := true, activeProcess := none } ∧
    (5 : Nat) ≠ 9 := by
  refine ⟨by decide, by decide, by decide, by decide⟩

/-- C7 amended: `lastActivity` is refreshed (to the send's clock reading)
on every inbound message passed to `sendMessage`; parsed output events do
not touch it — the stdout handler only records the last event's message
for still-working notices. -/
theorem lastActivity_updated_on_send (st : ClaudeClient.ClientState) (chatId : Int)
    (s : SessionState) (msg : String) (now : Nat) (run : ClaudeClient.ProcRun)
    (h : lookupSession st.sessions chatId = some s) :
    ∃ s', lookupSession (ClaudeClient.sendMessage st chatId msg now run).state.sessions chatId
        = some s' ∧ s'.lastActivity = now := by
  cases hstart : s.conversationStarted with
  | false =>
    refine ⟨{ s with lastActivity := now, conversationStarted := true, activeProcess := none },
      ?_, rfl⟩
    simp [ClaudeClient.sendMessage, ClaudeClient.sendMessageStart, ClaudeClient.execSpawn,
      ClaudeClient.execClose, h, hstart, lookupSession_setSession_self, apply_ite Prod.snd]
  | true =>
    refine ⟨{ s with lastActivity := now, activeProcess := none }, ?_, rfl⟩
    simp [ClaudeClient.sendMessage, ClaudeClient.sendMessageStart, ClaudeClient.execSpawn,
      ClaudeClient.execClose, h, hstart, lookupSession_setSession_self, apply_ite Prod.snd]

/-- Witness for C7 (amended) at a concrete send issued at instant 5. -/
theorem lastActivity_updated_on_send_witness :
    ∃ s', lookupSession
        (ClaudeClient.sendMessage stFresh 1 "m" 5 ⟨7, [⟨9, .json toolLine⟩], "", 0⟩).state.sessions
        1 = some s' ∧ s'.lastActivity = 5 :=
  lastActivity_updated_on_send stFresh 1 sessFresh "m" 5 ⟨7, [⟨9, .json toolLine⟩], "", 0⟩ rfl

/-! ## C6: a second send overwrites the active process -/

/-- A session already running a subprocess (handle 7), conversation
started. -/
def sessActive : SessionState :=
  { chatId := 1, sessionId := "sid", lastActivity := 0
    conversationStarted := true, activeProcess := some 7 }

/-- A client holding exactly the active session for chat 1. -/
def stActive : ClaudeClient.ClientState := { sessions := [(1, sessActive)] }

/-- C6: issuing a second `sendMessage` against a session with an active
process `p1` is not rejected — the send proceeds, the new subprocess's
handle `p2` overwrites the active-process slot at spawn time, and from
then on `interruptProcess` (SIGINT) and `killSession` (SIGTERM) signal
only the newer process, never `p1`, which keeps running unsignalled. -/
theorem second_send_overwrites_active_process (st : ClaudeClient.ClientState)
    (chatId : Int) (s : SessionState) (p1 p2 : Nat) (now : Nat)
    (h : lookupSession st.sessions chatId = some s)
    (_hp : s.activeProcess = some p1) (hne : p1 ≠ p2) :
    ∃ args st1, ClaudeClient.sendMessageStart st chatId now = .proceed args st1 ∧
      (∃ s', lookupSession (ClaudeClient.execSpawn st1 chatId p2).sessions chatId = some s' ∧
        s'.activeProcess = some p2) ∧
      ClaudeClient.interruptProcess (ClaudeClient.execSpawn st1 chatId p2) chatId
        = (true, some (p2, "SIGINT")) ∧
      (ClaudeClient.interruptProcess (ClaudeClient.execSpawn st1 chatId p2) chatId).2
        ≠ some (p1, "SIGINT") ∧
      (ClaudeClient.killSession (ClaudeClient.execSpawn st1 chatId p2) chatId).2.2
        = some (p2, "SIGTERM") := by
  cases hstart : s.conversationStarted with
  | false =>
    refine ⟨ClaudeClient.baseArgs st ++ ["--session-id", s.sessionId],
      { st with sessions := (setSession st.sessions chatId
          { s with lastActivity := now, conversationStarted := true }) },
      ?_,
      ⟨{ s with lastActivity := now, conversationStarted := true, activeProcess := some p2 },
        ?_, rfl⟩,
      ?_, ?_, ?_⟩
    · simp [ClaudeClient.sendMessageStart, h, hstart]
    · simp [ClaudeClient.execSpawn, lookupSession_setSession_self]
    · simp [ClaudeClient.interruptProcess, ClaudeClient.execSpawn, lookupSession_setSession_self]
    · simp only [ClaudeClient.interruptProcess, ClaudeClient.execSpawn,
        lookupSession_setSession_self]
      simp
      omega
    · simp [ClaudeClient.killSession, ClaudeClient.execSpawn, lookupSession_setSession_self]
  | true =>
    refine ⟨ClaudeClient.baseArgs st ++ ["--resume", s.sessionId],
      { st with sessions := setSession st.sessions chatId ({ s with lastActivity := now }) },
      ?_, ⟨{ s with lastActivity := now, activeProcess := some p2 }, ?_, rfl⟩, ?_, ?_, ?_⟩
    · simp [ClaudeClient.sendMessageStart, h, hstart]
    · simp [ClaudeClient.execSpawn, lookupSession_setSession_self]
    · simp [ClaudeClient.interruptProcess, ClaudeClient.execSpawn, lookupSession_setSession_self]
    · simp only [ClaudeClient.interruptProcess, ClaudeClient.execSpawn,
        lookupSession_setSession_self]
      simp
      omega
    · simp [ClaudeClient.killSession, ClaudeClient.execSpawn, lookupSession_setSession_self]

/-- Witness for C6: second send against the active session (handle 7) at
spawn handle 8. -/
theorem second_send_overwrites_active_process_witness :
    ∃ args st1, ClaudeClient.sendMessageStart stActive 1 5 = .proceed args st1 ∧
      (∃ s', lookupSession (ClaudeClient.execSpawn st1 1 8).sessions 1 = some s' ∧
        s'.activeProcess = some 8) ∧
      ClaudeClient.interruptProcess (ClaudeClient.execSpawn st1 1 8) 1
        = (true, some (8, "SIGINT")) ∧
      (ClaudeClient.interruptProcess (ClaudeClient.execSpawn st1 1 8) 1).2
        ≠ some (7, "SIGINT") ∧
      (ClaudeClient.killSession (ClaudeClient.execSpawn st1 1 8) 1).2.2
        = some (8, "SIGTERM") :=
  second_send_overwrites_active_process stActive 1 sessActive 7 8 5 rfl rfl (by decide)

/-! ## C8: malformed lines are skipped without aborting the stream -/

/-- C8: a malformed (non-JSON or unrecognized) line yields no event and no
text and the stream continues with the next line — processing it is the
identity on the accumulator, and dropping a leading malformed line does
not change the whole stream phase; concretely, one invalid line followed
by one valid tool-use line yields exactly one progress event. -/
theorem malformed_line_skipped (onP : Bool) (acc : List ProgressEvent × String)
    (t1 t2 : Nat) (rest : List TimedLine) :
    processLine onP acc .malformed = acc ∧
    streamPhase onP (⟨t1, .malformed⟩ :: rest) = streamPhase onP rest ∧
    (streamPhase true [⟨t1, .malformed⟩, ⟨t2, .json toolLine⟩]).1
      = [{ type := "tool_use", message := "Running: ls" }] := by
  refine ⟨?_, ?_, ?_⟩
  · obtain ⟨evs, txt⟩ := acc
    rfl
  · have h1 : processLine onP (([], "") : List ProgressEvent × String) OutLine.malformed
        = ([], "") := rfl
    simp [streamPhase, h1]
  · rfl

/-! ## C9: the tool-use formatting table -/

theorem jsTake_length (s : String) (n : Nat) : (jsTake s n).length = min n s.length := by
  simp [jsTake, String.length_mk, List.length_take]

/-- C9: the formatting table maps a `Bash` record with a (nonempty)
`command` field to `"Running: <command>"`, the command cut to its first 97
characters plus an ellipsis — 100 characters in all — when longer than
100; maps a `Read` record with a (nonempty) path field to
`"Reading: <path>"`; and maps every tool name outside the table to
`"Using <tool-name>..."`. -/
theorem formatToolUse_table (c p t : String) (input1 input2 input3 : Option Json)
    (h1 : jget input1 "command" = some (Json.str c)) (h1ne : c ≠ "")
    (h2 : jget input2 "file_path" = some (Json.str p)) (h2ne : p ≠ "")
    (h3 : t ∉ (["Bash", "Read", "Write", "Edit", "Glob", "Grep", "WebFetch", "WebSearch",
        "Task", "EnterPlanMode", "ExitPlanMode", "TaskCreate", "TaskUpdate", "TaskList",
        "AskUserQuestion"] : List String)) :
    formatToolUse "Bash" input1
      = { type := "tool_use"
          message := "Running: " ++ (if c.length > 100 then jsTake c 97 ++ "..." else c) } ∧
    (c.length > 100 → (jsTake c 97 ++ "...").length = 100) ∧
    formatToolUse "Read" input2 = { type := "tool_use", message := "Reading: " ++ p } ∧
    formatToolUse t input3 = { type := "tool_use", message := "Using " ++ t ++ "..." } := by
  refine ⟨?_, ?_, ?_, ?_⟩
  · simp [formatToolUse, h1, Json.truthy, h1ne]
  · intro hlen
    have hmk : (jsTake c 97 ++ "...").length = (jsTake c 97).length + ("..." : String).length :=
      String.length_append _ _
    rw [hmk, jsTake_length]
    have h3len : ("..." : String).length = 3 := rfl
    omega
  · simp [formatToolUse, jtruthy, h2, Json.truthy, h2ne, jsDisplay]
  · simp only [List.mem_cons, List.not_mem_nil, or_false, not_or] at h3
    rw [formatToolUse.eq_def]
    split <;> simp_all

/-- Witness for C9 at concrete inputs: a short Bash command, a file path,
and a tool name outside the table. -/
theorem formatToolUse_table_witness :
    formatToolUse "Bash" (some (.obj [("command", .str "ls")]))
      = { type := "tool_use"
          message := "Running: "
            ++ (if ("ls" : String).length > 100 then jsTake "ls" 97 ++ "..." else "ls") } ∧
    (("ls" : String).length > 100 → (jsTake "ls" 97 ++ "...").length = 100) ∧
    formatToolUse "Read" (some (.obj [("file_path", .str "/tmp/x")]))
      = { type := "tool_use", message := "Reading: " ++ "/tmp/x" } ∧
    formatToolUse "MysteryTool" none
      = { type := "tool_use", message := "Using " ++ "MysteryTool" ++ "..." } :=
  formatToolUse_table "ls" "/tmp/x" "MysteryTool"
    (some (.obj [("command", .str "ls")])) (some (.obj [("file_path", .str "/tmp/x")])) none
    rfl (by decide) rfl (by decide) (by decide)

/-! ## C10: the two backends implement the same session registry -/

theorem regStep_agree (cs : ClaudeClient.ClientState) (xs : CodexClient.ClientState)
    (hsess : cs.sessions = xs.sessions) (op : RegOp) :
    (ClaudeClient.regStep cs op).1 = (CodexClient.regStep xs op).1 ∧
    (ClaudeClient.regStep cs op).2.sessions = (CodexClient.regStep xs op).2.sessions := by
  cases op with
  | create chatId freshId now =>
    cases h : lookupSession xs.sessions chatId <;>
      simp [ClaudeClient.regStep, CodexClient.regStep, ClaudeClient.createSession,
        CodexClient.createSession, hsess, h]
  | has chatId =>
    simp [ClaudeClient.regStep, CodexClient.regStep, ClaudeClient.hasSession,
      CodexClient.hasSession, hsess]
  | kill chatId =>
    cases h : lookupSession xs.sessions chatId <;>
      simp [ClaudeClient.regStep, CodexClient.regStep, ClaudeClient.killSession,
        CodexClient.killSession, hsess, h]
  | interrupt chatId =>
    cases h : lookupSession xs.sessions chatId with
    | none =>
      simp [ClaudeClient.regStep, CodexClient.regStep, ClaudeClient.interruptProcess,
        CodexClient.interruptProcess, hsess, h]
    | some s =>
      cases hap : s.activeProcess <;>
        simp [ClaudeClient.regStep, CodexClient.regStep, ClaudeClient.interruptProcess,
          CodexClient.interruptProcess, hsess, h, hap]

theorem runOps_agree (ops : List RegOp) (cs : ClaudeClient.ClientState)
    (xs : CodexClient.ClientState) (hsess : cs.sessions = xs.sessions) :
    (ClaudeClient.runOps cs ops).1 = (CodexClient.runOps xs ops).1 ∧
    (ClaudeClient.runOps cs ops).2.sessions = (CodexClient.runOps xs ops).2.sessions := by
  induction ops generalizing cs xs with
  | nil => exact ⟨rfl, hsess⟩
  | cons op ops ih =>
    obtain ⟨h1, h2⟩ := regStep_agree cs xs hsess op
    obtain ⟨ih1, ih2⟩ := ih _ _ h2
    exact ⟨by simp [ClaudeClient.runOps, CodexClient.runOps, h1, ih1],
      by simp [ClaudeClient.runOps, CodexClient.runOps, ih2]⟩

/-- C10: starting from empty registries (whatever the configured system
prompt or progress callback), any sequence of `createSession`,
`hasSession`, `killSession` and `interruptProcess` operations — with the
same chat identifiers and the same identifier/clock oracle draws — yields
identical outputs (booleans and `createSession`-returned sessions) from a
`ClaudeClient` and a `CodexClient`, and leaves the two registries with
identical session maps, in particular sessions for exactly the same chat
identifiers. -/
theorem registry_equivalence (ops : List RegOp) (spfC spfX : Option String)
    (onC onX : Bool) :
    (ClaudeClient.runOps { sessions := [], systemPromptFile := spfC, onProgress := onC } ops).1
      = (CodexClient.runOps { sessions := [], systemPromptFile := spfX, onProgress := onX } ops).1 ∧
    (ClaudeClient.runOps { sessions := [], systemPromptFile := spfC, onProgress := onC }
        ops).2.sessions
      = (CodexClient.runOps { sessions := [], systemPromptFile := spfX, onProgress := onX }
        ops).2.sessions ∧
    ((ClaudeClient.runOps { sessions := [], systemPromptFile := spfC, onProgress := onC }
        ops).2.sessions.map Prod.fst)
      = ((CodexClient.runOps { sessions := [], systemPromptFile := spfX, onProgress := onX }
        ops).2.sessions.map Prod.fst) := by
  obtain ⟨h1, h2⟩ := runOps_agree ops
    { sessions := [], systemPromptFile := spfC, onProgress := onC }
    { sessions := [], systemPromptFile := spfX, onProgress := onX } rfl
  exact ⟨h1, h2, by rw [h2]⟩

end Claudegram
